import Mathlib

/-!
Verification of the AssemblyAI Cloudflare-Workers transcription service.

The development shallowly embeds the two source modules:

* the API client (uploadFile, createTranscript, getTranscript,
  waitForTranscript, getSubtitles, throwIfError), and
* the worker routes (POST /upload-file, GET /transcript/:id, and the
  top-level fetch wrapper), in both variants of the worker file.

Parsed JSON response bodies are modelled as a record of optional fields
(a missing field is the JavaScript value undefined); a remote HTTP
response carries its status code, status text, content type, the raw
body text and, when the body text is valid JSON, its parse.  Fallible
operations land in the Except monad; thrown JavaScript errors become
values of ClientErr.
-/

set_option autoImplicit false

/-- A parsed JSON response body from the remote service.  Every field is
optional because the service's JSON is polymorphic over success and
error shapes; a field that is absent from the JSON object is none
(JavaScript: undefined). -/
structure Body where
  error : Option String
  upload_url : Option String
  id : Option String
  text : Option String
  status : Option String
deriving DecidableEq

/-- An HTTP response from the remote service, as the fetch API presents
it to the client code.  json is the result of parsing bodyText as JSON
(none when the body is not valid JSON). -/
structure RemoteResp where
  status : Nat
  statusText : String
  contentType : Option String
  json : Option Body
  bodyText : String
deriving DecidableEq

/-- Errors thrown by the client code: service is the Error thrown by
throwIfError (carrying the body's error field verbatim); parse is the
SyntaxError thrown when response.json() cannot parse the body; generic
is the Error thrown by getSubtitles on a non-200, non-JSON response;
bodyUsed is the TypeError thrown when a fetch-API response body is read
a second time; typeError models calling a method of undefined. -/
inductive ClientErr where
  | service (msg : String)
  | parse
  | generic (msg : String)
  | bodyUsed
  | typeError
deriving DecidableEq

/-- The base URL constant of the client class. -/
def baseUrl : String := "https://api.assemblyai.com/v2"

/-- throwIfError from the client: throws new Error of the body's error
field whenever the field is present in the parsed body (presence, not
truthiness: the source tests membership of the key). -/
def throwIfError (body : Body) : Except ClientErr Unit :=
  match body.error with
  | some msg => Except.error (ClientErr.service msg)
  | none => Except.ok ()

/-- await response.json(): yields the parsed body, or throws when the
body text is not valid JSON. -/
def responseJson (r : RemoteResp) : Except ClientErr Body :=
  match r.json with
  | some b => Except.ok b
  | none => Except.error ClientErr.parse

/-- await response.text(): yields the raw body text, or throws a
TypeError when the body was already consumed by an earlier read. -/
def responseText (r : RemoteResp) (bodyConsumed : Bool) : Except ClientErr String :=
  if bodyConsumed then Except.error ClientErr.bodyUsed else Except.ok r.bodyText

/-- uploadFile: parses the JSON response of POST baseUrl/upload, applies
throwIfError, then returns the body's upload_url field.  The TypeScript
cast is unchecked, so the returned field may be absent (none). -/
def uploadFile (r : RemoteResp) : Except ClientErr (Option String) :=
  match responseJson r with
  | Except.error e => Except.error e
  | Except.ok json =>
    match throwIfError json with
    | Except.error e => Except.error e
    | Except.ok () => Except.ok json.upload_url

/-- createTranscript: parses the JSON response of POST baseUrl/transcript,
applies throwIfError, and returns the parsed body (cast to Transcript in
the source, a no-op at runtime). -/
def createTranscript (r : RemoteResp) : Except ClientErr Body :=
  match responseJson r with
  | Except.error e => Except.error e
  | Except.ok transcript =>
    match throwIfError transcript with
    | Except.error e => Except.error e
    | Except.ok () => Except.ok transcript

/-- getTranscript: parses the JSON response of GET baseUrl/transcript/id,
applies throwIfError, and returns the parsed body. -/
def getTranscript (r : RemoteResp) : Except ClientErr Body :=
  match responseJson r with
  | Except.error e => Except.error e
  | Except.ok transcript =>
    match throwIfError transcript with
    | Except.error e => Except.error e
    | Except.ok () => Except.ok transcript

/-- The outcome of one iteration of waitForTranscript's while loop:
raise an error, return the transcript, sleep 3000 ms and poll again
(status queued or processing), or poll again at once (the switch matched
no case and the loop falls through). -/
inductive WaitStep where
  | raised (e : ClientErr)
  | returned (b : Body)
  | sleepContinue
  | proceed
deriving DecidableEq

/-- The body of waitForTranscript's while loop, acting on one polled
response: parse the JSON body, apply throwIfError, then switch on the
status field. -/
def waitIter (r : RemoteResp) : WaitStep :=
  match responseJson r with
  | Except.error e => WaitStep.raised e
  | Except.ok transcript =>
    match throwIfError transcript with
    | Except.error e => WaitStep.raised e
    | Except.ok () =>
      if transcript.status = some "queued" ∨ transcript.status = some "processing" then
        WaitStep.sleepContinue
      else if transcript.status = some "completed" then
        WaitStep.returned transcript
      else
        WaitStep.proceed

/-- The final outcome of running waitForTranscript against a finite
sequence of polled responses: the loop returned the transcript, an error
was raised, or the supplied responses were exhausted with the loop still
polling (the real loop is unbounded). -/
inductive WaitOutcome where
  | returned (b : Body)
  | raised (e : ClientErr)
  | pending
deriving DecidableEq

/-- waitForTranscript, run against the finite sequence of responses the
remote service produces for its successive polls.  The first component
records the sleeps performed, in ms, in order (the source sleeps 3000 ms
after a queued or processing status and does not sleep otherwise). -/
def waitForTranscript : List RemoteResp → List Nat × WaitOutcome
  | [] => ([], WaitOutcome.pending)
  | r :: rest =>
    match waitIter r with
    | WaitStep.raised e => ([], WaitOutcome.raised e)
    | WaitStep.returned b => ([], WaitOutcome.returned b)
    | WaitStep.sleepContinue =>
      let result := waitForTranscript rest
      (3000 :: result.1, result.2)
    | WaitStep.proceed => waitForTranscript rest

/-- JavaScript String.prototype.startsWith: the search string's
character sequence is a prefix of the receiver's. -/
def jsStartsWith (s searchString : String) : Bool :=
  searchString.data.isPrefixOf s.data

/-- The optional-chained content-type test of getSubtitles:
response.headers.get, which is null for a missing header, followed by
?.startsWith of the JSON media type. -/
def ctStartsJson : Option String → Bool
  | some ct => jsStartsWith ct "application/json"
  | none => false

/-- getSubtitles: on a non-200 status, either parses the JSON body and
applies throwIfError (JSON content type) or throws a generic error
naming the status code and status text; control then reaches the final
response.text(), whose read fails if the body was consumed by the JSON
parse.  On a 200 status the raw body text is returned unread by any
JSON machinery. -/
def getSubtitles (r : RemoteResp) : Except ClientErr String :=
  if r.status ≠ 200 then
    if ctStartsJson r.contentType then
      match responseJson r with
      | Except.error e => Except.error e
      | Except.ok errorBody =>
        match throwIfError errorBody with
        | Except.error e => Except.error e
        | Except.ok () => responseText r true
    else
      Except.error (ClientErr.generic
        ("Get Subtitle request returned status " ++ toString r.status ++ " " ++ r.statusText))
  else
    responseText r false

/-- JavaScript truthiness of a string value: the empty string is falsy,
every other string is truthy. -/
def jsTruthyStr (s : String) : Bool := s ≠ ""

/-- Whether a parsed body contains a truthy error field, in the
JavaScript sense: the field is present and its string value is truthy. -/
def hasTruthyError (b : Body) : Bool :=
  match b.error with
  | some s => jsTruthyStr s
  | none => false

/-- JavaScript coercion of a possibly-undefined string value to a string,
as performed by template-literal interpolation: undefined prints as the
string undefined. -/
def jsString : Option String → String
  | some s => s
  | none => "undefined"

/-- An uploaded file, opaque to the worker: only its byte stream matters
and it is consumed once by the outbound upload request. -/
structure FileVal where
  data : String
deriving DecidableEq

/-- The body of an outbound HTTP request: the streamed file of the
upload call, the JSON.stringify of the transcript-creation parameters
(kept as the parameter record, since the serialization is injective), or
no body. -/
inductive ReqBody where
  | stream (f : FileVal)
  | jsonParams (audio_url : Option String) (webhook_url : Option String)
  | empty
deriving DecidableEq

/-- An outbound HTTP request to the remote service, as built by the
client's fetch calls. -/
structure HttpRequest where
  method : String
  url : String
  headers : List (String × String)
  body : ReqBody
deriving DecidableEq

/-- The request uploadFile sends: POST baseUrl/upload with the
authorization header and the file's stream as body. -/
def uploadRequest (apiKey : String) (file : FileVal) : HttpRequest :=
  { method := "POST"
    url := baseUrl ++ "/upload"
    headers := [("authorization", apiKey)]
    body := ReqBody.stream file }

/-- The request createTranscript sends: POST baseUrl/transcript with the
authorization and Content-Type headers and the JSON-serialized
parameters as body. -/
def createTranscriptRequest (apiKey : String) (audioUrl : Option String)
    (webhookUrl : Option String) : HttpRequest :=
  { method := "POST"
    url := baseUrl ++ "/transcript"
    headers := [("authorization", apiKey), ("Content-Type", "application/json")]
    body := ReqBody.jsonParams audioUrl webhookUrl }

/-- The request getTranscript sends: GET baseUrl/transcript/id with the
authorization header. -/
def getTranscriptRequest (apiKey : String) (id : String) : HttpRequest :=
  { method := "GET"
    url := baseUrl ++ "/transcript/" ++ id
    headers := [("authorization", apiKey)]
    body := ReqBody.empty }

/-- An HTTP response produced by the worker. -/
structure WorkerResp where
  status : Nat
  contentType : Option String
  body : String
  headers : List (String × String)
deriving DecidableEq

/-- Modelled from the spec: the itty-router text helper used by the
routes, which renders its argument as a plain-text HTTP response with
the supplied extra headers. -/
def ittyText (body : String) (headers : List (String × String)) : WorkerResp :=
  { status := 200
    contentType := some "text/plain"
    body := body
    headers := headers }

/-- Response.redirect of the Workers runtime: a response with the given
redirect status and a Location header naming the target URL. -/
def redirectResp (url : String) (status : Nat) : WorkerResp :=
  { status := status
    contentType := none
    body := ""
    headers := [("Location", url)] }

/-- new URL(path, base).toString() for an absolute path: the path is
resolved against the origin of the base URL.  The route handlers receive
the request URL's origin directly. -/
def urlResolve (origin : String) (path : String) : String := origin ++ path

/-- formData.get on the multipart form body: the value of the first
field with the given name, or null when the field is absent.  The worker
only ever reads the file field, so fields are modelled as files. -/
def formGet (form : List (String × FileVal)) (name : String) : Option FileVal :=
  (form.find? (fun p => p.1 == name)).map (fun p => p.2)

/-- The POST /upload-file route handler.  transport is the remote
service: it maps each outbound request to its response.  The handler
extracts the file field of the form, uploads it, creates a transcript
from the returned upload URL, and redirects (303) to the transcript
page.  The first component records the outbound requests in order; a
missing file field makes file.stream() throw a TypeError. -/
def uploadFileRoute (apiKey : String) (transport : HttpRequest → RemoteResp)
    (form : List (String × FileVal)) (origin : String) :
    List HttpRequest × Except ClientErr WorkerResp :=
  match formGet form "file" with
  | none => ([], Except.error ClientErr.typeError)
  | some file =>
    let req1 := uploadRequest apiKey file
    match uploadFile (transport req1) with
    | Except.error e => ([req1], Except.error e)
    | Except.ok uploadUrl =>
      let req2 := createTranscriptRequest apiKey uploadUrl none
      match createTranscript (transport req2) with
      | Except.error e => ([req1, req2], Except.error e)
      | Except.ok transcript =>
        ([req1, req2],
         Except.ok (redirectResp
           (urlResolve origin ("/transcript/" ++ jsString transcript.id)) 303))

/-- The GET /transcript/:id route handler of the first worker variant:
fetch the transcript through the client; if its status is completed,
respond with the transcript text as plain text, otherwise respond with
the status string as plain text and a Refresh header of 3 seconds. -/
def transcriptRouteV1 (apiKey : String) (transport : HttpRequest → RemoteResp)
    (id : String) : Except ClientErr WorkerResp :=
  match getTranscript (transport (getTranscriptRequest apiKey id)) with
  | Except.error e => Except.error e
  | Except.ok transcript =>
    if transcript.status = some "completed" then
      Except.ok (ittyText (jsString transcript.text) [])
    else
      Except.ok (ittyText (jsString transcript.status) [("Refresh", "3")])

/-- Modelled from the spec: the alternate worker variant fetches the
transcript through the assemblyai SDK's transcripts.get, whose code is
not part of this repository; the spec states the variant behaves as
getTranscript does. -/
def sdkTranscriptsGet (apiKey : String) (transport : HttpRequest → RemoteResp)
    (id : String) : Except ClientErr Body :=
  getTranscript (transport (getTranscriptRequest apiKey id))

/-- The GET /transcript/:id route handler of the alternate worker
variant, identical to the first apart from fetching through the SDK and
a Refresh header of 1 second. -/
def transcriptRouteV2 (apiKey : String) (transport : HttpRequest → RemoteResp)
    (id : String) : Except ClientErr WorkerResp :=
  match sdkTranscriptsGet apiKey transport id with
  | Except.error e => Except.error e
  | Except.ok transcript =>
    if transcript.status = some "completed" then
      Except.ok (ittyText (jsString transcript.text) [])
    else
      Except.ok (ittyText (jsString transcript.status) [("Refresh", "1")])

/-- A value returned by a route handler before the then(json) step: a
proper Response, or some other value identified by its JSON
serialization. -/
inductive HandlerVal where
  | resp (r : WorkerResp)
  | raw (data : String)
deriving DecidableEq

/-- Modelled from the spec: the itty-router json helper applied by
then(json) — a proper Response passes through unchanged, any other
value is serialized as a JSON response. -/
def ittyJson : HandlerVal → WorkerResp
  | HandlerVal.resp r => r
  | HandlerVal.raw data =>
    { status := 200
      contentType := some "application/json"
      body := data
      headers := [] }

/-- Modelled from the spec: the itty-router error helper applied by
catch(error) — any unhandled error becomes a generic error HTTP
response, with no status-code mapping based on the error kind. -/
def ittyError (_e : ClientErr) : WorkerResp :=
  { status := 500
    contentType := none
    body := "Internal Server Error"
    headers := [] }

/-- The default export's fetch: router.handle(req).then(json).catch(error),
applied to the outcome of routing (a raised error or a handler value). -/
def workerFetch (routed : Except ClientErr HandlerVal) : WorkerResp :=
  match routed with
  | Except.ok v => ittyJson v
  | Except.error e => ittyError e

/-- A polled response that keeps waitForTranscript polling: it parses,
carries no error field, and its status is not completed. -/
def nonTerminalPoll (r : RemoteResp) : Prop :=
  ∃ b, r.json = some b ∧ b.error = none ∧ b.status ≠ some "completed"

/-- Sample error body returned by the remote service. -/
def bodyErr : Body :=
  { error := some "bad", upload_url := none, id := none, text := none, status := none }

/-- Sample response carrying bodyErr. -/
def respErr : RemoteResp :=
  { status := 200, statusText := "OK", contentType := some "application/json"
    json := some bodyErr, bodyText := "" }

/-- Sample queued transcript body. -/
def bodyQueued : Body :=
  { error := none, upload_url := none, id := some "abc123", text := some ""
    status := some "queued" }

/-- Sample response carrying bodyQueued. -/
def respQueued : RemoteResp :=
  { status := 200, statusText := "OK", contentType := some "application/json"
    json := some bodyQueued, bodyText := "" }

/-- Sample processing transcript body. -/
def bodyProcessing : Body :=
  { error := none, upload_url := none, id := some "abc123", text := some ""
    status := some "processing" }

/-- Sample response carrying bodyProcessing. -/
def respProcessing : RemoteResp :=
  { status := 200, statusText := "OK", contentType := some "application/json"
    json := some bodyProcessing, bodyText := "" }

/-- Sample completed transcript body. -/
def bodyCompleted : Body :=
  { error := none, upload_url := none, id := some "abc123", text := some "hello world"
    status := some "completed" }

/-- Sample response carrying bodyCompleted. -/
def respCompleted : RemoteResp :=
  { status := 200, statusText := "OK", contentType := some "application/json"
    json := some bodyCompleted, bodyText := "" }

/-- Sample 404 JSON error response. -/
def resp404Json : RemoteResp :=
  { status := 404, statusText := "Not Found", contentType := some "application/json"
    json := some bodyErr, bodyText := "" }

/-- Sample 500 HTML response. -/
def resp500Html : RemoteResp :=
  { status := 500, statusText := "Internal Server Error", contentType := some "text/html"
    json := none, bodyText := "boom" }

/-- Sample 200 response whose body is a JSON error object. -/
def resp200ErrJson : RemoteResp :=
  { status := 200, statusText := "OK", contentType := some "application/json"
    json := some bodyErr, bodyText := "raw subtitle text" }

/-- Sample 400 JSON response whose body lacks an error field. -/
def resp400NoErr : RemoteResp :=
  { status := 400, statusText := "Bad Request", contentType := some "application/json"
    json := some bodyQueued, bodyText := "" }

/-- Sample 500 response carrying bodyQueued, to pair with respQueued. -/
def resp500Queued : RemoteResp :=
  { status := 500, statusText := "Internal Server Error"
    contentType := some "application/json", json := some bodyQueued, bodyText := "x" }

/-- The message of a raised service error (the Error thrown by
throwIfError), when the result is one. -/
def serviceMsg {A : Type} : Except ClientErr A → Option String
  | Except.error (ClientErr.service m) => some m
  | _ => none

/-- The message of a loop iteration's raised service error, when the
iteration raised one. -/
def stepServiceMsg : WaitStep → Option String
  | WaitStep.raised (ClientErr.service m) => some m
  | _ => none

/-- A body whose error field is present but falsy: the empty string is
not truthy in JavaScript. -/
def bodyFalsyErr : Body :=
  { error := some "", upload_url := some "https://cdn/upload", id := none, text := none
    status := none }

/-- A 200 JSON response carrying bodyFalsyErr. -/
def respFalsyErr : RemoteResp :=
  { status := 200, statusText := "OK", contentType := some "application/json"
    json := some bodyFalsyErr, bodyText := "" }

/-- Sample body with an unrecognized status value and no error field. -/
def bodyUnknownStatus : Body :=
  { error := none, upload_url := none, id := some "abc123", text := some ""
    status := some "error" }

/-- Sample response carrying bodyUnknownStatus. -/
def respUnknownStatus : RemoteResp :=
  { status := 200, statusText := "OK", contentType := some "application/json"
    json := some bodyUnknownStatus, bodyText := "" }

/-- Sample body carrying both an upload URL and a transcript id, so one
transport response can serve both remote calls of the upload route. -/
def bodyUploadCreate : Body :=
  { error := none, upload_url := some "https://cdn/upload/1", id := some "abc123"
    text := some "", status := some "queued" }

/-- Sample response carrying bodyUploadCreate. -/
def respUploadCreate : RemoteResp :=
  { status := 200, statusText := "OK", contentType := some "application/json"
    json := some bodyUploadCreate, bodyText := "" }

/-- Unfolding lemma: when the polled body parses and has no error field,
the loop body only switches on the status field. -/
theorem waitIter_ok (r : RemoteResp) (b : Body) (hj : r.json = some b)
    (he : b.error = none) :
    waitIter r =
      if b.status = some "queued" ∨ b.status = some "processing" then
        WaitStep.sleepContinue
      else if b.status = some "completed" then WaitStep.returned b
      else WaitStep.proceed := by
  simp only [waitIter, responseJson, throwIfError, hj, he]

/-- Unfolding lemma: when the polled body parses and carries an error
field, the loop body raises the service error at once. -/
theorem waitIter_err (r : RemoteResp) (b : Body) (m : String) (hj : r.json = some b)
    (he : b.error = some m) : waitIter r = WaitStep.raised (ClientErr.service m) := by
  simp only [waitIter, responseJson, throwIfError, hj, he]

/-- A loop iteration that returns a transcript only does so at status
completed, and returns the parsed body itself. -/
theorem waitIter_returned_status (r : RemoteResp) (b : Body)
    (h : waitIter r = WaitStep.returned b) : b.status = some "completed" := by
  cases hj : r.json with
  | none => simp only [waitIter, responseJson, hj] at h; cases h
  | some c =>
    cases he : c.error with
    | some m => simp only [waitIter, responseJson, throwIfError, hj, he] at h; cases h
    | none =>
      simp only [waitIter, responseJson, throwIfError, hj, he] at h
      by_cases h1 : c.status = some "queued" ∨ c.status = some "processing"
      · rw [if_pos h1] at h; cases h
      · rw [if_neg h1] at h
        by_cases h2 : c.status = some "completed"
        · rw [if_pos h2] at h
          injection h with hb
          rw [← hb]; exact h2
        · rw [if_neg h2] at h; cases h

/-- A non-terminal poll leaves the loop's final outcome unchanged. -/
theorem waitForTranscript_cons_nonTerminal (r : RemoteResp) (l : List RemoteResp)
    (h : nonTerminalPoll r) :
    (waitForTranscript (r :: l)).2 = (waitForTranscript l).2 := by
  obtain ⟨b, hj, he, hs⟩ := h
  have hi := waitIter_ok r b hj he
  simp only [waitForTranscript]
  rw [hi]
  by_cases h1 : b.status = some "queued" ∨ b.status = some "processing"
  · rw [if_pos h1]
  · rw [if_neg h1, if_neg hs]

/-- On a non-200 response, getSubtitles never returns a value: every
branch of the non-200 arm throws, including the JSON branch without an
error field, where the final body read finds the body consumed. -/
theorem getSubtitles_non200_no_return (r : RemoteResp) (h : r.status ≠ 200) :
    ∀ s, getSubtitles r ≠ Except.ok s := by
  intro s
  unfold getSubtitles
  rw [if_pos h]
  cases hct : ctStartsJson r.contentType
  · simp
  · cases hj : r.json with
    | none => simp [responseJson, hj]
    | some b =>
      cases he : b.error with
      | some m => simp [responseJson, throwIfError, hj, he]
      | none => simp [responseJson, throwIfError, responseText, hj, he]

/-- Claim C5: for a getSubtitles response whose status is not 200, a
JSON content type makes the embedded error message of the parsed body
the raised error, a non-JSON content type raises a generic error naming
the HTTP status code and status text, and in either sub-case the
operation does not return subtitle text. -/
theorem getSubtitles_non200_c5 (r : RemoteResp) (h : r.status ≠ 200) :
    (∀ b m, ctStartsJson r.contentType = true → r.json = some b → b.error = some m →
        getSubtitles r = Except.error (ClientErr.service m)) ∧
    (ctStartsJson r.contentType = false →
        getSubtitles r = Except.error (ClientErr.generic
          ("Get Subtitle request returned status " ++ toString r.status ++ " " ++ r.statusText))) ∧
    (∀ s, getSubtitles r ≠ Except.ok s) := by
  refine ⟨?_, ?_, getSubtitles_non200_no_return r h⟩
  · intro b m hct hj he
    unfold getSubtitles
    rw [if_pos h]
    simp [hct, responseJson, throwIfError, hj, he]
  · intro hct
    unfold getSubtitles
    rw [if_pos h]
    simp [hct]

/-- Claim C5 witness: a 404 JSON error response raises its embedded
message, and a 500 HTML response raises the generic status error. -/
theorem getSubtitles_non200_c5_witness :
    getSubtitles resp404Json = Except.error (ClientErr.service "bad") ∧
    getSubtitles resp500Html =
      Except.error (ClientErr.generic
        ("Get Subtitle request returned status " ++ toString (500 : Nat) ++ " " ++
          "Internal Server Error")) := by
  constructor
  · exact (getSubtitles_non200_c5 _ (by decide)).1 bodyErr "bad" (by decide) rfl rfl
  · exact (getSubtitles_non200_c5 _ (by decide)).2.1 rfl

/-- Claim C6: on a 200 response getSubtitles returns the raw body text
exactly as received, whatever the body holds; the body is never parsed
as JSON and no error check touches it. -/
theorem getSubtitles_200_c6 (r : RemoteResp) (h : r.status = 200) :
    getSubtitles r = Except.ok r.bodyText := by
  unfold getSubtitles
  rw [if_neg (fun hne => hne h)]
  rfl

/-- Claim C6 witness: a 200 response whose body is a JSON error object
is still returned verbatim as subtitle text. -/
theorem getSubtitles_200_c6_witness :
    getSubtitles resp200ErrJson = Except.ok "raw subtitle text" :=
  getSubtitles_200_c6 _ rfl

/-- Claim C10: for a non-200 getSubtitles response with JSON content
type whose parsed body has no error field, the JSON parse consumes the
body, the subsequent text read throws, and the operation fails; no
non-200 response ever yields a return value. -/
theorem getSubtitles_body_consumed_c10 (r : RemoteResp) (h : r.status ≠ 200) :
    (∀ b, ctStartsJson r.contentType = true → r.json = some b → b.error = none →
        getSubtitles r = Except.error ClientErr.bodyUsed) ∧
    (∀ s, getSubtitles r ≠ Except.ok s) := by
  refine ⟨?_, getSubtitles_non200_no_return r h⟩
  intro b hct hj he
  unfold getSubtitles
  rw [if_pos h]
  simp [hct, responseJson, throwIfError, responseText, hj, he]

/-- Claim C10 witness: a 400 JSON response without an error field makes
getSubtitles fail with the body-already-used error. -/
theorem getSubtitles_body_consumed_c10_witness :
    getSubtitles resp400NoErr = Except.error ClientErr.bodyUsed :=
  (getSubtitles_body_consumed_c10 _ (by decide)).1 bodyQueued (by decide) rfl rfl

/-- Claim C8: uploadFile, createTranscript and getTranscript are
functions of the parsed response body alone; two responses with the same
parsed body produce identical results whatever their status codes. -/
theorem clientOps_status_independent_c8 (r1 r2 : RemoteResp) (h : r1.json = r2.json) :
    uploadFile r1 = uploadFile r2 ∧ createTranscript r1 = createTranscript r2 ∧
      getTranscript r1 = getTranscript r2 := by
  unfold uploadFile createTranscript getTranscript responseJson
  rw [h]
  exact ⟨rfl, rfl, rfl⟩

/-- Claim C8 witness: a 200 and a 500 response with the same parsed body
give the same results for all three operations. -/
theorem clientOps_status_independent_c8_witness :
    uploadFile respQueued = uploadFile resp500Queued ∧
    createTranscript respQueued = createTranscript resp500Queued ∧
    getTranscript respQueued = getTranscript resp500Queued :=
  clientOps_status_independent_c8 _ _ rfl

/-- Claim C9: the top-level fetch wrapper turns a raised error into the
generic error response, passes a proper response through unchanged, and
serializes any other handler value as a JSON response. -/
theorem workerFetch_fallback_c9 (e : ClientErr) (r : WorkerResp) (data : String) :
    workerFetch (Except.error e) = ittyError e ∧ (ittyError e).status = 500 ∧
    workerFetch (Except.ok (HandlerVal.resp r)) = r ∧
    workerFetch (Except.ok (HandlerVal.raw data)) =
      { status := 200, contentType := some "application/json", body := data, headers := [] } :=
  ⟨rfl, rfl, rfl, rfl⟩

/-- Claim C1 counterexample: a parsed body whose error field is present
but not truthy (the empty string) still makes uploadFile raise, so an
operation raises although the body contains no truthy error field,
refuting the only-if direction of the claim: the source tests presence
of the key, not truthiness of the value. -/
theorem client_error_truthy_c1_counterexample :
    uploadFile respFalsyErr = Except.error (ClientErr.service "") ∧
    hasTruthyError bodyFalsyErr = false :=
  ⟨rfl, rfl⟩

/-- Claim C1 as amended: for uploadFile, createTranscript, getTranscript
and each iteration of waitForTranscript, the operation raises exactly
when the parsed body contains an error field — present even if falsy —
and the raised error's message equals that field's value; in the JSON
branch of getSubtitles a present error field likewise raises with that
exact message. -/
theorem client_error_presence_c1 (r : RemoteResp) (b : Body) (h : r.json = some b) :
    (serviceMsg (uploadFile r) = b.error ∧
      ((∃ e, uploadFile r = Except.error e) ↔ b.error.isSome = true)) ∧
    (serviceMsg (createTranscript r) = b.error ∧
      ((∃ e, createTranscript r = Except.error e) ↔ b.error.isSome = true)) ∧
    (serviceMsg (getTranscript r) = b.error ∧
      ((∃ e, getTranscript r = Except.error e) ↔ b.error.isSome = true)) ∧
    (stepServiceMsg (waitIter r) = b.error ∧
      ((∃ e, waitIter r = WaitStep.raised e) ↔ b.error.isSome = true)) ∧
    (∀ m, r.status ≠ 200 → ctStartsJson r.contentType = true → b.error = some m →
      getSubtitles r = Except.error (ClientErr.service m)) := by
  cases he : b.error with
  | some m =>
    have hu : uploadFile r = Except.error (ClientErr.service m) := by
      simp [uploadFile, responseJson, throwIfError, h, he]
    have hc : createTranscript r = Except.error (ClientErr.service m) := by
      simp [createTranscript, responseJson, throwIfError, h, he]
    have hg : getTranscript r = Except.error (ClientErr.service m) := by
      simp [getTranscript, responseJson, throwIfError, h, he]
    have hw := waitIter_err r b m h he
    refine ⟨⟨by rw [hu]; rfl, by simp [hu]⟩, ⟨by rw [hc]; rfl, by simp [hc]⟩,
      ⟨by rw [hg]; rfl, by simp [hg]⟩, ⟨by rw [hw]; rfl, by simp [hw]⟩, ?_⟩
    intro m2 hst hct he2
    have hm : m2 = m := (Option.some.inj he2).symm
    subst hm
    unfold getSubtitles
    rw [if_pos hst]
    simp [hct, responseJson, throwIfError, h, he]
  | none =>
    have hu : uploadFile r = Except.ok b.upload_url := by
      simp [uploadFile, responseJson, throwIfError, h, he]
    have hc : createTranscript r = Except.ok b := by
      simp [createTranscript, responseJson, throwIfError, h, he]
    have hg : getTranscript r = Except.ok b := by
      simp [getTranscript, responseJson, throwIfError, h, he]
    have hw := waitIter_ok r b h he
    have hw1 : stepServiceMsg (waitIter r) = none := by
      rw [hw]
      split
      · rfl
      · split <;> rfl
    have hw2 : ∀ e, waitIter r ≠ WaitStep.raised e := by
      intro e
      rw [hw]
      split
      · simp
      · split <;> simp
    refine ⟨⟨by rw [hu]; rfl, by simp [hu]⟩, ⟨by rw [hc]; rfl, by simp [hc]⟩,
      ⟨by rw [hg]; rfl, by simp [hg]⟩, ⟨by rw [hw1], ?_⟩, ?_⟩
    · constructor
      · rintro ⟨e, hee⟩
        exact absurd hee (hw2 e)
      · intro hh
        exact absurd hh (by simp)
    · intro m2 hst hct he2
      exact Option.noConfusion he2

/-- Claim C1 witness: a concrete error body raises with its exact
message through uploadFile, the loop iteration and the getSubtitles JSON
branch. -/
theorem client_error_presence_c1_witness :
    serviceMsg (uploadFile respErr) = some "bad" ∧
    stepServiceMsg (waitIter respErr) = some "bad" ∧
    getSubtitles resp404Json = Except.error (ClientErr.service "bad") := by
  have h := client_error_presence_c1 respErr bodyErr rfl
  have h4 := client_error_presence_c1 resp404Json bodyErr rfl
  refine ⟨?_, ?_, ?_⟩
  · rw [h.1.1]
    rfl
  · rw [h.2.2.2.1.1]
    rfl
  · exact h4.2.2.2.2 "bad" (by decide) (by decide) rfl

/-- Claim C2: the polling loop never returns a transcript whose status
is not completed; after any run of non-terminal polls it raises
immediately at a poll whose body carries an error field (with that
message) and returns at a poll whose status is completed; every sleep is
the fixed 3000 ms, taken between polls while status is queued or
processing. -/
theorem waitForTranscript_c2 :
    (∀ polls b, (waitForTranscript polls).2 = WaitOutcome.returned b →
        b.status = some "completed") ∧
    (∀ pre r rest b m, (∀ x ∈ pre, nonTerminalPoll x) → r.json = some b →
        b.error = some m →
        (waitForTranscript (pre ++ r :: rest)).2 =
          WaitOutcome.raised (ClientErr.service m)) ∧
    (∀ pre r rest b, (∀ x ∈ pre, nonTerminalPoll x) → r.json = some b →
        b.error = none → b.status = some "completed" →
        (waitForTranscript (pre ++ r :: rest)).2 = WaitOutcome.returned b) ∧
    (∀ polls d, d ∈ (waitForTranscript polls).1 → d = 3000) ∧
    (∀ r rest b, r.json = some b → b.error = none →
        (b.status = some "queued" ∨ b.status = some "processing") →
        waitForTranscript (r :: rest) =
          (3000 :: (waitForTranscript rest).1, (waitForTranscript rest).2)) := by
  refine ⟨?_, ?_, ?_, ?_, ?_⟩
  · intro polls
    induction polls with
    | nil => intro b hb; simp [waitForTranscript] at hb
    | cons r rest ih =>
      intro b hb
      simp only [waitForTranscript] at hb
      cases hi : waitIter r with
      | raised e => rw [hi] at hb; simp at hb
      | returned c =>
        rw [hi] at hb
        simp at hb
        exact hb ▸ waitIter_returned_status r c hi
      | sleepContinue =>
        rw [hi] at hb
        simp at hb
        exact ih b hb
      | proceed =>
        rw [hi] at hb
        exact ih b hb
  · intro pre
    induction pre with
    | nil =>
      intro r rest b m hpre hj he
      simp only [List.nil_append, waitForTranscript]
      rw [waitIter_err r b m hj he]
    | cons x pre ih =>
      intro r rest b m hpre hj he
      rw [List.cons_append,
        waitForTranscript_cons_nonTerminal x _ (hpre x (List.mem_cons_self x pre))]
      exact ih r rest b m (fun y hy => hpre y (List.mem_cons_of_mem x hy)) hj he
  · intro pre
    induction pre with
    | nil =>
      intro r rest b hpre hj he hs
      have hi := waitIter_ok r b hj he
      rw [hs] at hi
      rw [if_neg (by decide), if_pos rfl] at hi
      simp only [List.nil_append, waitForTranscript]
      rw [hi]
    | cons x pre ih =>
      intro r rest b hpre hj he hs
      rw [List.cons_append,
        waitForTranscript_cons_nonTerminal x _ (hpre x (List.mem_cons_self x pre))]
      exact ih r rest b (fun y hy => hpre y (List.mem_cons_of_mem x hy)) hj he hs
  · intro polls
    induction polls with
    | nil => intro d hd; simp [waitForTranscript] at hd
    | cons r rest ih =>
      intro d hd
      simp only [waitForTranscript] at hd
      cases hi : waitIter r with
      | raised e => rw [hi] at hd; simp at hd
      | returned c => rw [hi] at hd; simp at hd
      | sleepContinue =>
        rw [hi] at hd
        simp at hd
        cases hd with
        | inl h0 => exact h0
        | inr h0 => exact ih d h0
      | proceed =>
        rw [hi] at hd
        exact ih d hd
  · intro r rest b hj he hs
    simp only [waitForTranscript]
    rw [waitIter_ok r b hj he, if_pos hs]

/-- Claim C2 witness: a queued poll followed by a completed poll returns
the completed transcript; a processing poll followed by an error poll
raises its message without consuming the rest; a queued poll sleeps
3000 ms. -/
theorem waitForTranscript_c2_witness :
    (waitForTranscript [respQueued, respCompleted]).2 =
      WaitOutcome.returned bodyCompleted ∧
    (waitForTranscript [respProcessing, respErr, respCompleted]).2 =
      WaitOutcome.raised (ClientErr.service "bad") ∧
    waitForTranscript [respQueued] =
      (3000 :: (waitForTranscript ([] : List RemoteResp)).1,
        (waitForTranscript ([] : List RemoteResp)).2) := by
  have h := waitForTranscript_c2
  refine ⟨?_, ?_, ?_⟩
  · exact h.2.2.1 [respQueued] respCompleted [] bodyCompleted
      (by
        intro x hx
        simp at hx
        subst hx
        exact ⟨bodyQueued, rfl, rfl, by decide⟩) rfl rfl rfl
  · exact h.2.1 [respProcessing] respErr [respCompleted] bodyErr "bad"
      (by
        intro x hx
        simp at hx
        subst hx
        exact ⟨bodyProcessing, rfl, rfl, by decide⟩) rfl rfl
  · exact h.2.2.2.2 respQueued [] bodyQueued rfl rfl (Or.inl rfl)

/-- Claim C3: at a polled response whose body parses, has no error field
and carries a status other than queued, processing or completed, the
loop iteration neither returns nor raises: it falls through the switch
and the run continues exactly as on the remaining polls. -/
theorem wait_unrecognized_status_c3 (r : RemoteResp) (rest : List RemoteResp)
    (b : Body) (s : String) (hj : r.json = some b) (he : b.error = none)
    (hs : b.status = some s) (h1 : s ≠ "queued") (h2 : s ≠ "processing")
    (h3 : s ≠ "completed") :
    waitIter r = WaitStep.proceed ∧
      waitForTranscript (r :: rest) = waitForTranscript rest := by
  have hcond1 : ¬(some s = some "queued" ∨ some s = some "processing") := by
    rintro (hq | hp)
    · exact h1 (Option.some.inj hq)
    · exact h2 (Option.some.inj hp)
  have hcond2 : some s ≠ some "completed" := fun hc => h3 (Option.some.inj hc)
  have hi : waitIter r = WaitStep.proceed := by
    rw [waitIter_ok r b hj he, hs, if_neg hcond1, if_neg hcond2]
  refine ⟨hi, ?_⟩
  simp only [waitForTranscript]
  rw [hi]

/-- Claim C3 witness: a poll whose status is the unrecognized string
error (with no error field) is skipped and the loop keeps polling. -/
theorem wait_unrecognized_status_c3_witness :
    waitIter respUnknownStatus = WaitStep.proceed ∧
    waitForTranscript [respUnknownStatus] = waitForTranscript [] :=
  wait_unrecognized_status_c3 _ [] _ "error" rfl rfl rfl (by decide) (by decide)
    (by decide)

/-- Claim C4: when the transcript fetch succeeds, both variants of the
GET /transcript/:id handler respond with the transcript text as the
plain-text body at status completed, and with the status string itself
plus a Refresh header — 3 in the first variant, 1 in the alternate —
for every other status value. -/
theorem transcript_route_c4 (apiKey id : String)
    (transport : HttpRequest → RemoteResp) (t : Body)
    (hj : (transport (getTranscriptRequest apiKey id)).json = some t)
    (he : t.error = none) :
    (∀ txt, t.status = some "completed" → t.text = some txt →
        transcriptRouteV1 apiKey transport id = Except.ok (ittyText txt []) ∧
        transcriptRouteV2 apiKey transport id = Except.ok (ittyText txt [])) ∧
    (∀ s, t.status = some s → s ≠ "completed" →
        transcriptRouteV1 apiKey transport id =
          Except.ok (ittyText s [("Refresh", "3")]) ∧
        transcriptRouteV2 apiKey transport id =
          Except.ok (ittyText s [("Refresh", "1")])) := by
  have hg : getTranscript (transport (getTranscriptRequest apiKey id)) = Except.ok t := by
    simp [getTranscript, responseJson, throwIfError, hj, he]
  constructor
  · intro txt hs ht
    constructor
    · simp [transcriptRouteV1, hg, hs, ht, jsString]
    · simp [transcriptRouteV2, sdkTranscriptsGet, hg, hs, ht, jsString]
  · intro s hs hne
    constructor
    · simp [transcriptRouteV1, hg, hs, hne, jsString]
    · simp [transcriptRouteV2, sdkTranscriptsGet, hg, hs, hne, jsString]

/-- Claim C4 witness: a completed transcript renders its text, and a
processing transcript renders the literal status string with the
alternate variant's Refresh header of 1. -/
theorem transcript_route_c4_witness :
    transcriptRouteV1 "key" (fun _ => respCompleted) "abc123" =
      Except.ok (ittyText "hello world" []) ∧
    transcriptRouteV2 "key" (fun _ => respProcessing) "abc123" =
      Except.ok (ittyText "processing" [("Refresh", "1")]) := by
  constructor
  · exact ((transcript_route_c4 "key" "abc123" (fun _ => respCompleted)
      bodyCompleted rfl rfl).1 "hello world" rfl rfl).1
  · exact ((transcript_route_c4 "key" "abc123" (fun _ => respProcessing)
      bodyProcessing rfl rfl).2 "processing" rfl (by decide)).2

/-- Claim C7: when both remote calls succeed, the POST /upload-file
handler sends exactly the upload request streaming the form's file field
and then the transcript-creation request whose audio_url parameter is
the returned upload URL, and responds with a 303 See Other redirect to
the transcript page of the created transcript's id. -/
theorem upload_route_c7 (apiKey origin : String)
    (transport : HttpRequest → RemoteResp) (form : List (String × FileVal))
    (f : FileVal) (ub tb : Body) (u i : String)
    (hf : formGet form "file" = some f)
    (huj : (transport (uploadRequest apiKey f)).json = some ub)
    (hue : ub.error = none) (huu : ub.upload_url = some u)
    (htj : (transport (createTranscriptRequest apiKey (some u) none)).json = some tb)
    (hte : tb.error = none) (hti : tb.id = some i) :
    uploadFileRoute apiKey transport form origin =
      ([uploadRequest apiKey f, createTranscriptRequest apiKey (some u) none],
        Except.ok (redirectResp (origin ++ ("/transcript/" ++ i)) 303)) := by
  have hu : uploadFile (transport (uploadRequest apiKey f)) = Except.ok (some u) := by
    simp [uploadFile, responseJson, throwIfError, huj, hue, huu]
  have hc : createTranscript (transport (createTranscriptRequest apiKey (some u) none)) =
      Except.ok tb := by
    simp [createTranscript, responseJson, throwIfError, htj, hte]
  simp [uploadFileRoute, hf, hu, hc, hti, jsString, urlResolve]

/-- Claim C7 witness: a concrete transport whose one response carries an
upload URL and a transcript id drives the handler to the 303 redirect,
after the two expected requests. -/
theorem upload_route_c7_witness :
    uploadFileRoute "key" (fun _ => respUploadCreate)
        [("file", FileVal.mk "bytes")] "https://example.com" =
      ([uploadRequest "key" (FileVal.mk "bytes"),
        createTranscriptRequest "key" (some "https://cdn/upload/1") none],
        Except.ok (redirectResp ("https://example.com" ++ ("/transcript/" ++ "abc123")) 303)) :=
  upload_route_c7 "key" "https://example.com" (fun _ => respUploadCreate)
    [("file", FileVal.mk "bytes")] (FileVal.mk "bytes") bodyUploadCreate bodyUploadCreate
    "https://cdn/upload/1" "abc123" rfl rfl rfl rfl rfl rfl rfl
